import Mathlib

/-!
Verification development for the batch-task execution environment
(`src/batch/src/task/env.rs`) of the risingwave batch engine, together
with spec-level models of the task manager's memory ledger and task
lifecycle state machine.

Modelling conventions:
* `Arc<T>` is modelled as `T` itself: cloning an `Arc` yields a handle to
  the same shared object, so handle equality is equality of the modelled
  value.
* Collaborator types that the environment merely stores and hands out
  (metrics registries, client pool, DML manager, batch config, state
  store) are modelled as opaque handle values: the environment never
  inspects them, so only their identity matters.
* Methods taking `&self` are embedded as pure functions; for frame-style
  claims a state-passing form returning `(result, post-state)` is used.
-/

/-- Modelled from the spec: metrics registries are opaque injected recording
handles (task-level metrics registry `BatchTaskMetrics`); the environment
only stores and shares them. -/
structure BatchTaskMetrics where
  handle : Nat
deriving DecidableEq

/-- Modelled from the spec: opaque executor-level metrics registry handle. -/
structure BatchExecutorMetrics where
  handle : Nat
deriving DecidableEq

/-- Modelled from the spec: opaque source metrics registry handle. -/
structure SourceMetrics where
  handle : Nat
deriving DecidableEq

/-- Modelled from the spec: opaque spill metrics registry handle. -/
structure BatchSpillMetrics where
  handle : Nat
deriving DecidableEq

/-- Modelled from the spec: opaque task-manager metrics registry handle. -/
structure BatchManagerMetrics where
  handle : Nat
deriving DecidableEq

/-- Modelled from the spec: batch configuration, opaque to the environment
(it is stored and handed out, never inspected). -/
structure BatchConfig where
  handle : Nat
deriving DecidableEq

/-- Modelled from the spec: opaque storage metrics handle used when building
the in-memory state store for tests. -/
structure MonitoredStorageMetrics where
  handle : Nat
deriving DecidableEq

/-- Modelled from the spec: the compute client pool keyed by peer address;
opaque handle at the environment boundary. -/
structure ComputeClientPool where
  handle : Nat
deriving DecidableEq

/-- Modelled from the spec: the DML manager collaborator, opaque handle. -/
structure DmlManager where
  handle : Nat
deriving DecidableEq

/-- Modelled from the spec: the state store collaborator; the test
constructor `shared_in_memory_store` builds the shared in-memory variant
from a storage-metrics handle. -/
inductive StateStoreImpl
  | shared_in_memory_store (metrics : MonitoredStorageMetrics)
  | hummock_state_store (handle : Nat)
  | sled_state_store (handle : Nat)
deriving DecidableEq

/-- Worker node identifier (`u32` alias in the source). -/
def WorkerNodeId := Nat
deriving DecidableEq

/-- Default worker node id (`u32::default()` is zero). -/
def WorkerNodeId.default : WorkerNodeId := (0 : Nat)

/-- Metric verbosity level from the common configuration crate. -/
inductive MetricLevel
  | Disabled
  | Critical
  | Info
  | Debug
deriving DecidableEq

/-- Host address: host string plus port. -/
structure HostAddr where
  host : String
  port : Nat
deriving DecidableEq

/-- Splits a character list at its last colon, returning the parts before
and after it, or none when no colon occurs. -/
def splitLastColon : List Char → Option (List Char × List Char)
  | [] => none
  | c :: cs =>
    match splitLastColon cs with
    | some (h, p) => some (c :: h, p)
    | none => if c = ':' then some ([], cs) else none

/-- Accumulating decimal digit reader; fails on a non-digit character. -/
def digitsToNatAux : Nat → List Char → Option Nat
  | acc, [] => some acc
  | acc, c :: cs =>
    if c.isDigit then digitsToNatAux (10 * acc + (c.toNat - 48)) cs
    else none

/-- Modelled from the spec: parsing of a host address string of the form
`host:port` (the `FromStr` instance of `HostAddr` in the common crate,
which is not part of the sources); splits at the last colon and reads the
port as a decimal number bounded by the `u16` range. -/
def HostAddr.parse (s : String) : Option HostAddr :=
  match splitLastColon s.toList with
  | none => none
  | some (h, p) =>
    if p = [] then none
    else
      match digitsToNatAux 0 p with
      | none => none
      | some port => if port < 65536 then some ⟨String.mk h, port⟩ else none

/-- Modelled from the spec: the task manager (`BatchManager`, not part of
the sources). Only its constructor arguments (batch config, manager
metrics, node memory budget) and its `metrics` accessor are needed by the
environment; it is modelled as the record of its constructor arguments. -/
structure BatchManager where
  config : BatchConfig
  metrics : BatchManagerMetrics
  mem_limit : Nat
deriving DecidableEq

/-- Modelled from the spec: `BatchManager::new(config, metrics, mem_limit)`
aggregates its arguments. -/
def BatchManager.new (config : BatchConfig) (metrics : BatchManagerMetrics)
    (mem_limit : Nat) : BatchManager :=
  ⟨config, metrics, mem_limit⟩

/-- Modelled from the spec: `BatchConfig::default()`, a fixed opaque value. -/
def BatchConfig.default : BatchConfig := ⟨0⟩

/-- Modelled from the spec: `BatchManagerMetrics::for_test()` test registry. -/
def BatchManagerMetrics.for_test : BatchManagerMetrics := ⟨0⟩

/-- Modelled from the spec: `BatchTaskMetrics::for_test()` test registry. -/
def BatchTaskMetrics.for_test : BatchTaskMetrics := ⟨0⟩

/-- Modelled from the spec: `BatchExecutorMetrics::for_test()` test registry. -/
def BatchExecutorMetrics.for_test : BatchExecutorMetrics := ⟨0⟩

/-- Modelled from the spec: `BatchSpillMetrics::for_test()` test registry
(already shared, i.e. returned behind an `Arc` in the source). -/
def BatchSpillMetrics.for_test : BatchSpillMetrics := ⟨0⟩

/-- Modelled from the spec: `SourceMetrics::default()` registry. -/
def SourceMetrics.default : SourceMetrics := ⟨0⟩

/-- Modelled from the spec: `MonitoredStorageMetrics::unused()` handle. -/
def MonitoredStorageMetrics.unused : MonitoredStorageMetrics := ⟨0⟩

/-- Modelled from the spec: `ComputeClientPool::default()` pool. -/
def ComputeClientPool.default : ComputeClientPool := ⟨0⟩

/-- Modelled from the spec: `DmlManager::for_test()` test manager. -/
def DmlManager.for_test : DmlManager := ⟨0⟩

/-- The global environment for task execution, shared by every task.
Fields in source declaration order (`BatchEnvironment` in `env.rs`). -/
structure BatchEnvironment where
  server_addr : HostAddr
  task_manager : BatchManager
  config : BatchConfig
  worker_id : WorkerNodeId
  state_store : StateStoreImpl
  task_metrics : BatchTaskMetrics
  executor_metrics : BatchExecutorMetrics
  client_pool : ComputeClientPool
  dml_manager : DmlManager
  source_metrics : SourceMetrics
  spill_metrics : BatchSpillMetrics
  metric_level : MetricLevel
deriving DecidableEq

/-- `BatchEnvironment::new`: aggregates its arguments into the record
(argument order as in the source, which differs from field order). -/
def BatchEnvironment.new (task_manager : BatchManager) (server_addr : HostAddr)
    (config : BatchConfig) (worker_id : WorkerNodeId)
    (state_store : StateStoreImpl) (task_metrics : BatchTaskMetrics)
    (executor_metrics : BatchExecutorMetrics) (client_pool : ComputeClientPool)
    (dml_manager : DmlManager) (source_metrics : SourceMetrics)
    (spill_metrics : BatchSpillMetrics) (metric_level : MetricLevel) :
    BatchEnvironment :=
  ⟨server_addr, task_manager, config, worker_id, state_store, task_metrics,
   executor_metrics, client_pool, dml_manager, source_metrics, spill_metrics,
   metric_level⟩

/-- `BatchEnvironment::for_test`: environment with substituted fakes, field
by field as in the source (the source unwraps the address parse; here the
unwrap of a `some` value is taken with a default that is never reached at
this concrete input). -/
def BatchEnvironment.for_test : BatchEnvironment :=
  { task_manager :=
      BatchManager.new BatchConfig.default BatchManagerMetrics.for_test
        18446744073709551615
    server_addr := (HostAddr.parse "127.0.0.1:2333").getD ⟨"", 0⟩
    config := BatchConfig.default
    worker_id := WorkerNodeId.default
    state_store :=
      StateStoreImpl.shared_in_memory_store MonitoredStorageMetrics.unused
    task_metrics := BatchTaskMetrics.for_test
    client_pool := ComputeClientPool.default
    dml_manager := DmlManager.for_test
    source_metrics := SourceMetrics.default
    executor_metrics := BatchExecutorMetrics.for_test
    spill_metrics := BatchSpillMetrics.for_test
    metric_level := MetricLevel.Debug }

/-- Accessor `server_address`: returns the stored address. -/
def BatchEnvironment.server_address (env : BatchEnvironment) : HostAddr :=
  env.server_addr

/-- Accessor `dml_manager_ref`: clone of the stored DML manager handle. -/
def BatchEnvironment.dml_manager_ref (env : BatchEnvironment) : DmlManager :=
  env.dml_manager

/-- Accessor `manager_metrics`: delegates to the task manager's `metrics`. -/
def BatchEnvironment.manager_metrics (env : BatchEnvironment) :
    BatchManagerMetrics :=
  env.task_manager.metrics

/-- Derived `Clone` of the environment: clones every field (each field
clone is an `Arc` clone or a value copy, hence equal to the original). -/
def BatchEnvironment.clone (env : BatchEnvironment) : BatchEnvironment :=
  ⟨env.server_addr, env.task_manager, env.config, env.worker_id,
   env.state_store, env.task_metrics, env.executor_metrics, env.client_pool,
   env.dml_manager, env.source_metrics, env.spill_metrics, env.metric_level⟩

/-- The public accessors of the environment, one constructor per method. -/
inductive Accessor
  | server_address
  | task_manager
  | config
  | worker_id
  | state_store
  | manager_metrics
  | task_metrics
  | executor_metrics
  | client_pool
  | dml_manager_ref
  | source_metrics
  | spill_metrics
  | metric_level
deriving DecidableEq

/-- Sum of the accessor result types. -/
inductive AccessorResult
  | addr (a : HostAddr)
  | mgr (m : BatchManager)
  | cfg (c : BatchConfig)
  | wid (w : WorkerNodeId)
  | store (s : StateStoreImpl)
  | mgrMetrics (m : BatchManagerMetrics)
  | taskMetrics (m : BatchTaskMetrics)
  | execMetrics (m : BatchExecutorMetrics)
  | pool (p : ComputeClientPool)
  | dml (d : DmlManager)
  | srcMetrics (m : SourceMetrics)
  | spillMetrics (m : BatchSpillMetrics)
  | level (l : MetricLevel)
deriving DecidableEq

/-- State-passing embedding of an accessor call: each method takes `&self`
and is embedded as returning its result together with the post-state of
the environment. -/
def BatchEnvironment.call (env : BatchEnvironment) :
    Accessor → AccessorResult × BatchEnvironment
  | .server_address => (.addr env.server_address, env)
  | .task_manager => (.mgr env.task_manager, env)
  | .config => (.cfg env.config, env)
  | .worker_id => (.wid env.worker_id, env)
  | .state_store => (.store env.state_store, env)
  | .manager_metrics => (.mgrMetrics env.manager_metrics, env)
  | .task_metrics => (.taskMetrics env.task_metrics, env)
  | .executor_metrics => (.execMetrics env.executor_metrics, env)
  | .client_pool => (.pool env.client_pool, env)
  | .dml_manager_ref => (.dml env.dml_manager_ref, env)
  | .source_metrics => (.srcMetrics env.source_metrics, env)
  | .spill_metrics => (.spillMetrics env.spill_metrics, env)
  | .metric_level => (.level env.metric_level, env)

/-- Modelled from the spec: result of a memory reservation attempt
(§4.2 Memory / Spill Controller, not part of the sources). -/
inductive ReserveResult
  | Grant
  | SpillRequired
  | Denied
deriving DecidableEq

/-- The memory ledger: per-task byte counters, keyed by task id. -/
def ledgerLookup : List (Nat × Nat) → Nat → Nat
  | [], _ => 0
  | (t, b) :: rest, tid => if t = tid then b else ledgerLookup rest tid

/-- Sets the ledger entry of a task (first occurrence, or appended). -/
def ledgerSet : List (Nat × Nat) → Nat → Nat → List (Nat × Nat)
  | [], tid, v => [(tid, v)]
  | (t, b) :: rest, tid, v =>
    if t = tid then (t, v) :: rest else (t, b) :: ledgerSet rest tid v

/-- Sum of all per-task ledger entries. -/
def ledgerTotal : List (Nat × Nat) → Nat
  | [] => 0
  | (_, b) :: rest => b + ledgerTotal rest

/-- Modelled from the spec: the Memory / Spill Controller state (§4.2, not
part of the sources): the configured node-wide limit (zero meaning
unbounded, controller disabled), the per-task soft quota policy parameter,
and the per-task ledger. -/
structure MemoryController where
  limit : Nat
  soft_quota : Nat
  ledger : List (Nat × Nat)
deriving DecidableEq

/-- Modelled from the spec: `try_reserve(task_id, bytes)` (§4.2). With a
zero-configured limit the controller is disabled and always grants.
Otherwise: if the node-wide total would exceed the hard limit the request
is denied with no ledger change; if the task would exceed its soft quota
while the node still has headroom, spilling is requested with no ledger
change; else the reservation is granted and the ledger updated. -/
def MemoryController.try_reserve (c : MemoryController) (tid bytes : Nat) :
    ReserveResult × MemoryController :=
  if c.limit = 0 then
    (.Grant,
     ⟨c.limit, c.soft_quota,
      ledgerSet c.ledger tid (ledgerLookup c.ledger tid + bytes)⟩)
  else if ledgerTotal c.ledger + bytes ≤ c.limit then
    if ledgerLookup c.ledger tid + bytes ≤ c.soft_quota then
      (.Grant,
       ⟨c.limit, c.soft_quota,
        ledgerSet c.ledger tid (ledgerLookup c.ledger tid + bytes)⟩)
    else (.SpillRequired, c)
  else (.Denied, c)

/-- Modelled from the spec: `release(task_id, bytes)` (§4.2) decrements the
ledger entry and never fails; releasing more than reserved is clamped to
zero (truncated subtraction). -/
def MemoryController.release (c : MemoryController) (tid bytes : Nat) :
    MemoryController :=
  ⟨c.limit, c.soft_quota,
   ledgerSet c.ledger tid (ledgerLookup c.ledger tid - bytes)⟩

/-- One linearized controller operation: the spec makes `try_reserve` and
`release` atomic (linearizable), so any concurrent execution is an
interleaving, i.e. a sequence of these operations. -/
inductive MemOp
  | reserve (tid bytes : Nat)
  | free (tid bytes : Nat)
deriving DecidableEq

/-- Applies one linearized operation to the controller state. -/
def MemoryController.step (c : MemoryController) : MemOp → MemoryController
  | .reserve tid bytes => (c.try_reserve tid bytes).2
  | .free tid bytes => c.release tid bytes

/-- Runs a sequence of linearized operations. -/
def MemoryController.run (c : MemoryController) :
    List MemOp → MemoryController
  | [] => c
  | op :: ops => (c.step op).run ops

/-- Fresh controller with the given limits and an empty ledger. -/
def MemoryController.init (limit soft_quota : Nat) : MemoryController :=
  ⟨limit, soft_quota, []⟩

/-- Modelled from the spec: task lifecycle states (§3 Data Model, task
manager not part of the sources). -/
inductive TaskState
  | Pending
  | Running
  | Finished
  | Failed
  | Cancelled
deriving DecidableEq

/-- Whether a state is terminal. -/
def TaskState.is_terminal : TaskState → Bool
  | .Finished => true
  | .Failed => true
  | .Cancelled => true
  | _ => false

/-- Modelled from the spec: the state-changing events of a task (§4.1):
the worker starting the task, normal completion, operator error, and
`abort`/upstream cancellation. (`schedule` creates a new task and
`remove_finished` evicts one; neither mutates an existing task's state.) -/
inductive TaskEvent
  | start
  | finish
  | fail
  | abort
deriving DecidableEq

/-- Modelled from the spec: the task state machine (§4.1):
`Pending -[start]-> Running`, `Running -[finish]-> Finished`,
`Running -[fail]-> Failed`, `{Pending, Running} -[abort]-> Cancelled`;
any other attempted transition is silently ignored. -/
def TaskState.step : TaskState → TaskEvent → TaskState
  | .Pending, .start => .Running
  | .Running, .finish => .Finished
  | .Running, .fail => .Failed
  | .Pending, .abort => .Cancelled
  | .Running, .abort => .Cancelled
  | s, _ => s

/-- Runs a sequence of task events from a state. -/
def TaskState.run : TaskState → List TaskEvent → TaskState
  | s, [] => s
  | s, e :: es => (s.step e).run es

/-- C1: the execution environment is a pure aggregator — for every tuple of
constructor arguments, each accessor of `BatchEnvironment::new`'s result
returns exactly the corresponding argument unchanged, so accessors are
mere projections of the stored values. -/
theorem c1_new_pure_aggregator
    (task_manager : BatchManager) (server_addr : HostAddr)
    (config : BatchConfig) (worker_id : WorkerNodeId)
    (state_store : StateStoreImpl) (task_metrics : BatchTaskMetrics)
    (executor_metrics : BatchExecutorMetrics) (client_pool : ComputeClientPool)
    (dml_manager : DmlManager) (source_metrics : SourceMetrics)
    (spill_metrics : BatchSpillMetrics) (metric_level : MetricLevel) :
    let env := BatchEnvironment.new task_manager server_addr config worker_id
      state_store task_metrics executor_metrics client_pool dml_manager
      source_metrics spill_metrics metric_level
    env.server_address = server_addr ∧
    env.task_manager = task_manager ∧
    env.config = config ∧
    env.worker_id = worker_id ∧
    env.state_store = state_store ∧
    env.task_metrics = task_metrics ∧
    env.executor_metrics = executor_metrics ∧
    env.client_pool = client_pool ∧
    env.dml_manager_ref = dml_manager ∧
    env.source_metrics = source_metrics ∧
    env.spill_metrics = spill_metrics ∧
    env.metric_level = metric_level :=
  ⟨rfl, rfl, rfl, rfl, rfl, rfl, rfl, rfl, rfl, rfl, rfl, rfl⟩

/-- C2: cloning an environment is observationally identity — every accessor
returns on `env.clone()` a value equal to what it returns on `env`. -/
theorem c2_clone_observational_identity (env : BatchEnvironment)
    (a : Accessor) : (env.clone.call a).1 = (env.call a).1 := by
  cases a <;> rfl

/-- C3: the four metrics registries are non-interfering — two environments
built from argument tuples agreeing on everything except the four metrics
arguments return equal values from every non-metrics accessor. -/
theorem c3_metrics_non_interference
    (task_manager : BatchManager) (server_addr : HostAddr)
    (config : BatchConfig) (worker_id : WorkerNodeId)
    (state_store : StateStoreImpl) (client_pool : ComputeClientPool)
    (dml_manager : DmlManager) (metric_level : MetricLevel)
    (tm1 tm2 : BatchTaskMetrics) (em1 em2 : BatchExecutorMetrics)
    (sm1 sm2 : SourceMetrics) (pm1 pm2 : BatchSpillMetrics) :
    let e1 := BatchEnvironment.new task_manager server_addr config worker_id
      state_store tm1 em1 client_pool dml_manager sm1 pm1 metric_level
    let e2 := BatchEnvironment.new task_manager server_addr config worker_id
      state_store tm2 em2 client_pool dml_manager sm2 pm2 metric_level
    e1.server_address = e2.server_address ∧
    e1.task_manager = e2.task_manager ∧
    e1.config = e2.config ∧
    e1.worker_id = e2.worker_id ∧
    e1.state_store = e2.state_store ∧
    e1.client_pool = e2.client_pool ∧
    e1.dml_manager_ref = e2.dml_manager_ref ∧
    e1.metric_level = e2.metric_level :=
  ⟨rfl, rfl, rfl, rfl, rfl, rfl, rfl, rfl⟩

/-- C4: every accessor is read-only — the state-passing embedding of each
accessor call leaves the environment unchanged, and calling the same
accessor twice in succession returns equal values both times. -/
theorem c4_accessors_read_only (env : BatchEnvironment) (a : Accessor) :
    (env.call a).2 = env ∧ ((env.call a).2.call a).1 = (env.call a).1 := by
  cases a <;> exact ⟨rfl, rfl⟩

/-- C5: the manager metrics are derived from the task manager, not stored
beside it — `manager_metrics` returns exactly the `metrics` of the value
the `task_manager` accessor returns, both directly and through the
accessor-call embedding. -/
theorem c5_manager_metrics_delegates (env : BatchEnvironment) :
    env.manager_metrics = env.task_manager.metrics ∧
    (env.call Accessor.manager_metrics).1 =
      AccessorResult.mgrMetrics env.task_manager.metrics :=
  ⟨rfl, rfl⟩

/-- C6: `BatchEnvironment::new` is total and unconditionally succeeds — in
the embedding it is a total function, and it is surjective onto all
environment values (every environment is the image of its own fields), so
construction performs no validation, normalization, or rejection. -/
theorem c6_new_total_surjective (env : BatchEnvironment) :
    BatchEnvironment.new env.task_manager env.server_addr env.config
      env.worker_id env.state_store env.task_metrics env.executor_metrics
      env.client_pool env.dml_manager env.source_metrics env.spill_metrics
      env.metric_level = env := rfl

/-- C7: `for_test` builds the environment the claim describes — server
address is the parse of "127.0.0.1:2333", config is the default batch
config, worker id the default worker node id, state store the shared
in-memory store, client pool the default compute client pool, DML manager
the test DML manager, metric level Debug, and the task manager is a
`BatchManager` from the default config, test manager metrics, and a memory
budget of `u64::MAX`. -/
theorem c7_for_test_fields :
    HostAddr.parse "127.0.0.1:2333" = some ⟨"127.0.0.1", 2333⟩ ∧
    BatchEnvironment.for_test.server_address = ⟨"127.0.0.1", 2333⟩ ∧
    BatchEnvironment.for_test.config = BatchConfig.default ∧
    BatchEnvironment.for_test.worker_id = WorkerNodeId.default ∧
    BatchEnvironment.for_test.state_store =
      StateStoreImpl.shared_in_memory_store MonitoredStorageMetrics.unused ∧
    BatchEnvironment.for_test.client_pool = ComputeClientPool.default ∧
    BatchEnvironment.for_test.dml_manager_ref = DmlManager.for_test ∧
    BatchEnvironment.for_test.metric_level = MetricLevel.Debug ∧
    BatchEnvironment.for_test.task_manager =
      BatchManager.new BatchConfig.default BatchManagerMetrics.for_test
        18446744073709551615 := by
  refine ⟨by decide, by decide, rfl, rfl, rfl, rfl, rfl, rfl, rfl⟩

/-- A ledger entry never exceeds the sum of all entries. -/
theorem ledgerLookup_le_total (l : List (Nat × Nat)) (tid : Nat) :
    ledgerLookup l tid ≤ ledgerTotal l := by
  induction l with
  | nil => exact Nat.le_refl 0
  | cons hd tl ih =>
    obtain ⟨t, b⟩ := hd
    simp only [ledgerLookup, ledgerTotal]
    by_cases h : t = tid
    · rw [if_pos h]; omega
    · rw [if_neg h]; omega

/-- Updating one entry changes the sum by replacing that entry's value. -/
theorem ledgerTotal_ledgerSet (l : List (Nat × Nat)) (tid v : Nat) :
    ledgerTotal (ledgerSet l tid v) + ledgerLookup l tid =
      ledgerTotal l + v := by
  induction l with
  | nil => simp [ledgerSet, ledgerTotal, ledgerLookup]
  | cons hd tl ih =>
    obtain ⟨t, b⟩ := hd
    by_cases h : t = tid <;>
      simp [ledgerSet, ledgerTotal, ledgerLookup, h] <;> omega

/-- One controller step keeps the configured limit unchanged. -/
theorem memStep_limit (c : MemoryController) (op : MemOp) :
    (c.step op).limit = c.limit := by
  cases op with
  | reserve tid bytes =>
    simp only [MemoryController.step, MemoryController.try_reserve]
    split
    · rfl
    · split
      · split <;> rfl
      · rfl
  | free tid bytes => rfl

/-- One controller step preserves the ledger-sum bound when the configured
limit is nonzero. -/
theorem memStep_total_le (c : MemoryController) (op : MemOp)
    (hl : c.limit ≠ 0) (h : ledgerTotal c.ledger ≤ c.limit) :
    ledgerTotal (c.step op).ledger ≤ c.limit := by
  cases op with
  | reserve tid bytes =>
    have key :=
      ledgerTotal_ledgerSet c.ledger tid (ledgerLookup c.ledger tid + bytes)
    have hlk := ledgerLookup_le_total c.ledger tid
    simp only [MemoryController.step, MemoryController.try_reserve]
    split
    · exact absurd (by assumption) hl
    · split
      · split
        · simpa using (by omega :
            ledgerTotal (ledgerSet c.ledger tid
              (ledgerLookup c.ledger tid + bytes)) ≤ c.limit)
        · simpa using h
      · simpa using h
  | free tid bytes =>
    have key :=
      ledgerTotal_ledgerSet c.ledger tid (ledgerLookup c.ledger tid - bytes)
    have hlk := ledgerLookup_le_total c.ledger tid
    simp only [MemoryController.step, MemoryController.release]
    omega

/-- Running any operation sequence preserves the ledger-sum bound when the
configured limit is nonzero. -/
theorem memRun_total_le (c : MemoryController) (ops : List MemOp)
    (hl : c.limit ≠ 0) (h : ledgerTotal c.ledger ≤ c.limit) :
    ledgerTotal (c.run ops).ledger ≤ c.limit := by
  induction ops generalizing c with
  | nil => exact h
  | cons op ops ih =>
    have h2 := memStep_limit c op
    have h3 := ih (c.step op) (by rw [h2]; exact hl)
      (by rw [h2]; exact memStep_total_le c op hl h)
    rw [h2] at h3
    exact h3

/-- C8 counterexample: the claim as stated fails at a zero-configured node
limit — the spec makes a zero limit disable the controller (always grant),
so a single reservation of one byte by task 1 drives the ledger sum to 1,
exceeding the configured limit 0. -/
theorem c8_counterexample :
    ¬ ledgerTotal ((MemoryController.init 0 100).run
        [MemOp.reserve 1 1]).ledger ≤ (MemoryController.init 0 100).limit := by
  decide

/-- C8 (amended): for every nonzero configured node-wide limit and every
linearized sequence of `try_reserve`/`release` operations across any tasks,
the sum of all per-task ledger entries is at most the configured limit —
the sequence is arbitrary, so the bound holds at every observable instant
(every prefix of an execution is itself such a sequence). -/
theorem c8_ledger_sum_bounded (limit soft_quota : Nat) (ops : List MemOp)
    (hl : limit ≠ 0) :
    ledgerTotal ((MemoryController.init limit soft_quota).run ops).ledger ≤
      limit :=
  memRun_total_le (MemoryController.init limit soft_quota) ops hl
    (by simp [MemoryController.init, ledgerTotal])

/-- Witness for C8 (amended) at limit 8, soft quota 4, and a concrete
four-operation sequence. -/
theorem c8_ledger_sum_bounded_witness :
    (8 : Nat) ≠ 0 ∧
    ledgerTotal ((MemoryController.init 8 4).run
        [MemOp.reserve 1 3, MemOp.reserve 2 3, MemOp.reserve 1 3,
         MemOp.free 1 2]).ledger ≤ 8 :=
  ⟨by decide,
   c8_ledger_sum_bounded 8 4
     [MemOp.reserve 1 3, MemOp.reserve 2 3, MemOp.reserve 1 3,
      MemOp.free 1 2] (by decide)⟩

/-- A single step out of a terminal task state is ignored. -/
theorem taskStep_terminal (s : TaskState) (e : TaskEvent)
    (h : s.is_terminal = true) : s.step e = s := by
  cases s <;> cases e <;>
    first
    | rfl
    | simp [TaskState.is_terminal] at h

/-- C9: terminal task states are absorbing — once a task's state is
Finished, Failed, or Cancelled, no sequence of further events (worker
transitions or manager calls) changes it; every attempted transition out
of a terminal state is silently ignored. -/
theorem c9_terminal_absorbing (s : TaskState) (h : s.is_terminal = true)
    (evs : List TaskEvent) : s.run evs = s := by
  induction evs with
  | nil => rfl
  | cons e es ih =>
    show (s.step e).run es = s
    rw [taskStep_terminal s e h]
    exact ih

/-- Witness for C9 at the Finished state and a concrete event sequence. -/
theorem c9_terminal_absorbing_witness :
    TaskState.Finished.is_terminal = true ∧
    TaskState.run TaskState.Finished
      [TaskEvent.start, TaskEvent.abort, TaskEvent.fail, TaskEvent.finish] =
      TaskState.Finished :=
  ⟨rfl,
   c9_terminal_absorbing TaskState.Finished rfl
     [TaskEvent.start, TaskEvent.abort, TaskEvent.fail, TaskEvent.finish]⟩
